import Mathlib

/-!
Verification of the OAuth 2.0 Authorization-Code-with-PKCE client flow of
the CloudClient repository.  The flow implementation module
(dwave/cloud/auth/flows.py) is not among the provided source files — only
its test suite (tests/auth/test_flows.py) is — so the data model and the
operations below are modelled from the specification (spec.md §§3–4), kept
consistent with the behaviour the tests exercise.  Randomness (PKCE pair,
state nonce), the wall clock, and the network are passed in explicitly as
parameters; the list of token-endpoint requests issued by an operation is
returned alongside its result so that "no network call was made" is a
provable statement.
-/

namespace CloudClient

/-- Modelled from the spec: a Token record (spec.md §3) — access_token,
optional refresh_token and id_token, absolute `expires_at` derived from
`expires_in` at issuance, and token_type.  The concrete implementation in
dwave/cloud/auth/flows.py is missing from the sources. -/
structure Token where
  access_token : String
  refresh_token : Option String
  id_token : Option String
  expires_at : Int
  token_type : Option String
deriving DecidableEq, Repr

/-- Modelled from the spec: the Credential Store (spec.md §3, §4.5) — a
mapping from issuer endpoint URL to Token; writes overwrite prior entries
for that key. -/
abbrev Credentials := List (String × Token)

/-- Lookup of a token by issuer key; a missing key reads as `none`. -/
def Credentials.get (c : Credentials) (k : String) : Option Token :=
  match c with
  | [] => none
  | (k2, t) :: rest => if k = k2 then some t else Credentials.get rest k

/-- Store a token under an issuer key, overwriting any prior entry. -/
def Credentials.set (c : Credentials) (k : String) (t : Token) : Credentials :=
  (k, t) :: c.filter (fun p => p.1 ≠ k)

/-- Modelled from the spec: the HTTP session's observable configuration
state (spec.md §3 SessionConfig applied to the HTTP client): TLS client
certificate, default headers, proxy map, default timeout, verify flag. -/
structure Session where
  cert : Option String
  headers : List (String × String)
  proxies : List (String × String)
  default_timeout : Option Nat
  verify : Bool
deriving DecidableEq, Repr

/-- Modelled from the spec: SessionConfig (spec.md §3) — each field
optional, `none` meaning "not supplied". -/
structure SessionConfig where
  cert : Option String
  headers : Option (List (String × String))
  proxies : Option (List (String × String))
  timeout : Option Nat
  verify : Option Bool
deriving DecidableEq, Repr

/-- A fresh session with library defaults. -/
def defaultSession : Session :=
  { cert := none
  , headers := [("User-Agent", "dwave-cloud-client")]
  , proxies := []
  , default_timeout := none
  , verify := true }

/-- Modelled from the spec: `update_session` semantics (spec.md §4.2) —
apply SessionConfig fields non-destructively: supplied headers are merged
into (override, do not replace) the existing defaults; other supplied
fields replace the prior value.  A header map is read through
`List.lookup`, where entries earlier in the list shadow later ones. -/
def Session.update (s : Session) (c : SessionConfig) : Session :=
  { cert := match c.cert with | some x => some x | none => s.cert
  , headers := match c.headers with | some h => h ++ s.headers | none => s.headers
  , proxies := match c.proxies with | some p => p | none => s.proxies
  , default_timeout := match c.timeout with | some t => some t | none => s.default_timeout
  , verify := match c.verify with | some v => v | none => s.verify }

/-- Modelled from the spec: a PKCE verifier/challenge pair (spec.md §3);
generation is randomness, so a pair is an input to the operations that
would generate one. -/
structure PKCEPair where
  code_verifier : String
  code_challenge : String
deriving DecidableEq, Repr

/-- Modelled from the spec: the error taxonomy (spec.md §7). -/
inductive AuthError where
  | AuthStateMismatch
  | AuthTokenExchangeError
  | AuthFlowTimeout
  | CredentialStoreError
deriving DecidableEq, Repr

/-- Modelled from the spec: the Authorization Flow object (spec.md §3–4).
`scopes` is stored ready-joined with single spaces (the wire form, as the
tests observe on the `scopes` attribute); `state` and `code_verifier` hold
the at-most-one outstanding (StateNonce, PKCE verifier) pair. -/
structure AuthFlow where
  client_id : String
  scopes : String
  redirect_uri : String
  authorization_endpoint : String
  token_endpoint : String
  leap_api_endpoint : String
  creds : Credentials
  session : Session
  state : Option String
  code_verifier : Option String
  token : Option Token
deriving DecidableEq, Repr

/-- Modelled from the spec: flow construction — FlowConfig fields are set
once; the scope sequence is joined with single spaces; the session starts
from library defaults and, when a SessionConfig is supplied at
construction, is updated with it exactly as `update_session` would. -/
def AuthFlow.new (client_id : String) (scopes : List String)
    (redirect_uri authorization_endpoint token_endpoint leap_api_endpoint : String)
    (creds : Credentials) (session_config : Option SessionConfig) : AuthFlow :=
  { client_id := client_id
  , scopes := String.intercalate " " scopes
  , redirect_uri := redirect_uri
  , authorization_endpoint := authorization_endpoint
  , token_endpoint := token_endpoint
  , leap_api_endpoint := leap_api_endpoint
  , creds := creds
  , session := match session_config with
      | some c => defaultSession.update c
      | none => defaultSession
  , state := none
  , code_verifier := none
  , token := none }

/-- Modelled from the spec: `update_session(config)` (spec.md §4.2). -/
def AuthFlow.update_session (flow : AuthFlow) (c : SessionConfig) : AuthFlow :=
  { flow with session := flow.session.update c }

/-- Modelled from the spec: the token setter (spec.md §4.2) — installs a
Token as the flow's active token and persists it into Credentials under
the flow's issuer (leap_api_endpoint) key. -/
def AuthFlow.set_token (flow : AuthFlow) (t : Token) : AuthFlow :=
  { flow with token := some t
            , creds := flow.creds.set flow.leap_api_endpoint t }

/-- The query parameters of the authorization URL (spec.md §4.2, §6). -/
def authQueryParams (flow : AuthFlow) (pkce : PKCEPair) (nonce : String) :
    List (String × String) :=
  [ ("response_type", "code")
  , ("client_id", flow.client_id)
  , ("redirect_uri", flow.redirect_uri)
  , ("scope", flow.scopes)
  , ("state", nonce)
  , ("code_challenge", pkce.code_challenge)
  , ("code_challenge_method", "S256") ]

/-- Render a query-parameter list as a query string. -/
def renderQuery (ps : List (String × String)) : String :=
  String.intercalate "&" (ps.map (fun p => p.1 ++ "=" ++ p.2))

/-- Modelled from the spec: `get_authorization_url()` (spec.md §4.2) —
builds the GET URL at the authorization endpoint and stores the freshly
generated state nonce and PKCE verifier, discarding any previously
outstanding pair.  The fresh randomness is the `pkce`/`nonce` arguments. -/
def AuthFlow.get_authorization_url (flow : AuthFlow) (pkce : PKCEPair)
    (nonce : String) : String × AuthFlow :=
  ( flow.authorization_endpoint ++ "?" ++ renderQuery (authQueryParams flow pkce nonce)
  , { flow with state := some nonce, code_verifier := some pkce.code_verifier } )

/-- A form-encoded POST body for the authorization-code exchange
(spec.md §6). -/
structure TokenRequest where
  grant_type : String
  client_id : String
  redirect_uri : String
  code : String
  code_verifier : Option String
deriving DecidableEq, Repr

/-- A form-encoded POST body for the refresh exchange (spec.md §6). -/
structure RefreshRequest where
  grant_type : String
  client_id : String
  refresh_token : String
deriving DecidableEq, Repr

/-- A token-endpoint HTTP response: status code and the JSON body fields
of spec.md §6 (each body field optional). -/
structure TokenResponse where
  status : Nat
  access_token : Option String
  refresh_token : Option String
  id_token : Option String
  expires_in : Option Nat
  token_type : Option String
deriving DecidableEq, Repr

/-- Modelled from the spec: the conservative default used for
`expires_at` when the response carries no `expires_in` (spec.md §4.2);
the spec fixes its existence, not its value. -/
def DEFAULT_EXPIRES_IN : Nat := 3600

/-- Build the Token a successful exchange yields: the response's body
fields, with `expires_at` computed from `expires_in` at issuance time. -/
def tokenOfResponse (r : TokenResponse) (atok : String) (now : Int) : Token :=
  { access_token := atok
  , refresh_token := r.refresh_token
  , id_token := r.id_token
  , expires_at := now + (r.expires_in.getD DEFAULT_EXPIRES_IN)
  , token_type := r.token_type }

/-- The authorization-code exchange request a flow would POST
(spec.md §6). -/
def authCodeRequest (flow : AuthFlow) (code : String) : TokenRequest :=
  { grant_type := "authorization_code"
  , client_id := flow.client_id
  , redirect_uri := flow.redirect_uri
  , code := code
  , code_verifier := flow.code_verifier }

/-- The code-for-token exchange proper: POST to the token endpoint
(the network is the `server` function; the issued request is returned in
the request log), fail with AuthTokenExchangeError on a non-success status
or a body missing access_token, otherwise install and persist the new
Token.  Modelled from spec.md §4.2. -/
def AuthFlow.exchange (flow : AuthFlow) (code : String)
    (server : TokenRequest → TokenResponse) (now : Int) :
    Except AuthError (Token × AuthFlow) × List TokenRequest :=
  let req := authCodeRequest flow code
  let resp := server req
  let result : Except AuthError (Token × AuthFlow) :=
    if resp.status = 200 then
      match resp.access_token with
      | none => .error .AuthTokenExchangeError
      | some atok =>
        let tok := tokenOfResponse resp atok now
        .ok (tok, flow.set_token tok)
    else .error .AuthTokenExchangeError
  (result, [req])

/-- Modelled from the spec: `fetch_token(code, state=None)` (spec.md §4.2)
— when a `state` is passed back it must exactly equal the stored nonce;
a mismatch fails with AuthStateMismatch and the exchange does not proceed
(the request log stays empty).  On match, or when no state check applies,
the exchange runs. -/
def AuthFlow.fetch_token (flow : AuthFlow) (code : String) (state : Option String)
    (server : TokenRequest → TokenResponse) (now : Int) :
    Except AuthError (Token × AuthFlow) × List TokenRequest :=
  match state with
  | some x =>
    if flow.state = some x then flow.exchange code server now
    else (.error .AuthStateMismatch, [])
  | none => flow.exchange code server now

/-- The refresh-grant request a flow would POST (spec.md §6). -/
def refreshRequest (flow : AuthFlow) (rt : String) : RefreshRequest :=
  { grant_type := "refresh_token"
  , client_id := flow.client_id
  , refresh_token := rt }

/-- Modelled from the spec: `refresh_token()` (spec.md §4.2) — POSTs a
refresh-token grant using the active Token's refresh_token; fails with
AuthTokenExchangeError when no refresh_token is present or the server
rejects the request; on success replaces the active Token and persists
it. -/
def AuthFlow.refresh_token (flow : AuthFlow)
    (server : RefreshRequest → TokenResponse) (now : Int) :
    Except AuthError (Token × AuthFlow) :=
  match flow.token with
  | none => .error .AuthTokenExchangeError
  | some t =>
    match t.refresh_token with
    | none => .error .AuthTokenExchangeError
    | some rt =>
      let resp := server (refreshRequest flow rt)
      if resp.status = 200 then
        match resp.access_token with
        | none => .error .AuthTokenExchangeError
        | some atok =>
          let tok := tokenOfResponse resp atok now
          .ok (tok, flow.set_token tok)
      else .error .AuthTokenExchangeError

/-- Modelled from the spec: `token_expires_soon(within=60s)` (spec.md
§4.2) — true iff `expires_at - now <= within`, a pure function of the
current Token and the wall clock; `none` when the flow holds no token. -/
def AuthFlow.token_expires_soon (flow : AuthFlow) (now within : Int) :
    Option Bool :=
  flow.token.map (fun t => decide (t.expires_at - now ≤ within))

/-- The default `within` of token_expires_soon (spec.md §4.2). -/
def TOKEN_EXPIRES_WITHIN : Int := 60

/-- Modelled from the spec: the fixed human-readable completion message
the redirect listener returns to the browser (spec.md §4.3); the spec
fixes its existence, not its wording. -/
def REDIRECT_DONE_MSG : String :=
  "Authorization completed. You can close this browser tab."

/-- A GET request as seen by the local redirect listener: path and parsed
query parameters. -/
structure HTTPGet where
  path : String
  query : List (String × String)
deriving DecidableEq, Repr

/-- Modelled from the spec: the redirect listener's handling of one
arriving GET (spec.md §4.3) — a request matching the redirect path has
its `code` and `state` query parameters extracted and is answered with
the fixed completion message; an unrelated path gets a benign not-found
response and captures nothing. -/
def AuthFlow.handle_redirect (redirect_path : String) (req : HTTPGet) :
    (Nat × String) × Option (Option String × Option String) :=
  if req.path = redirect_path then
    ((200, REDIRECT_DONE_MSG), some (req.query.lookup "code", req.query.lookup "state"))
  else
    ((404, "Not Found"), none)

/-- Modelled from the spec: the value-level behaviour of
`run_redirect_flow` once the single redirect request has arrived
(spec.md §4.3): the listener answers the browser, and the captured
(code, state) pair — returned explicitly so "fetch_token is invoked with
exactly this pair" is provable — is handed to `fetch_token`.  The
concurrent wait itself is abstracted into taking the one arriving request
as an argument. -/
def AuthFlow.run_redirect_step (flow : AuthFlow) (redirect_path : String)
    (req : HTTPGet) (server : TokenRequest → TokenResponse) (now : Int) :
    (Nat × String) ×
      Option ((String × Option String) ×
        (Except AuthError (Token × AuthFlow) × List TokenRequest)) :=
  match AuthFlow.handle_redirect redirect_path req with
  | (resp, some (some code, st)) =>
      (resp, some ((code, st), flow.fetch_token code st server now))
  | (resp, some (none, _)) => (resp, none)
  | (resp, none) => (resp, none)

/-- Modelled from the spec: the SDK default OAuth client id
(dwave/cloud/auth/config.py is missing from the sources; the spec fixes
the constant's existence, not its value). -/
def OCEAN_SDK_CLIENT_ID : String := "ocean-sdk-client-id"

/-- Modelled from the spec: the SDK default scopes (same provenance as
OCEAN_SDK_CLIENT_ID). -/
def OCEAN_SDK_SCOPES : List String := ["auth:read", "auth:write"]

/-- Modelled from the spec: the out-of-band sentinel redirect URI
(spec.md §3, §4.4). -/
def OOB_REDIRECT_URI : String := "oob"

/-- Modelled from the spec: the application configuration object
(dwave/cloud/config is missing from the sources) — the fields the
provider-specialized factory reads. -/
structure ClientConfig where
  leap_api_endpoint : String
  headers : List (String × String)
  request_timeout : Option Nat
  leap_client_id : Option String
deriving DecidableEq, Repr

/-- Modelled from the spec: the well-known authorization-endpoint suffix
appended to the issuer base URL by the provider-specialized factory
(spec.md §4.6). -/
def AUTHORIZE_SUFFIX : String := "/authorize"

/-- Modelled from the spec: the well-known token-endpoint suffix
(spec.md §4.6). -/
def TOKEN_SUFFIX : String := "/token"

/-- Modelled from the spec: `LeapAuthFlow.from_config_model` (spec.md
§4.6) — derives both endpoints from the issuer base URL plus the fixed
well-known suffixes, client_id and scopes from application defaults
unless overridden, redirect_uri defaulting to the out-of-band sentinel,
and wires the configuration's headers and timeout into SessionConfig. -/
def LeapAuthFlow.from_config_model (config : ClientConfig)
    (client_id : Option String) (scopes : Option (List String))
    (redirect_uri : Option String) : AuthFlow :=
  AuthFlow.new
    (match client_id with
     | some c => c
     | none => config.leap_client_id.getD OCEAN_SDK_CLIENT_ID)
    (scopes.getD OCEAN_SDK_SCOPES)
    (redirect_uri.getD OOB_REDIRECT_URI)
    (config.leap_api_endpoint ++ AUTHORIZE_SUFFIX)
    (config.leap_api_endpoint ++ TOKEN_SUFFIX)
    config.leap_api_endpoint
    []
    (some { cert := none
          , headers := some config.headers
          , proxies := none
          , timeout := config.request_timeout
          , verify := none })

/-! Helper lemmas and concrete fixtures (mirroring the test suite's setUp). -/

/-- Setting a token under a key makes it readable under that key. -/
theorem Credentials.get_set (c : Credentials) (k : String) (t : Token) :
    (c.set k t).get k = some t := by
  simp [Credentials.set, Credentials.get]

/-- Association-list lookup distributes over append: the left list wins. -/
theorem lookup_append (l₁ l₂ : List (String × String)) (k : String) :
    (l₁ ++ l₂).lookup k
      = match l₁.lookup k with
        | some v => some v
        | none => l₂.lookup k := by
  induction l₁ with
  | nil => simp [List.lookup]
  | cons p rest ih =>
    obtain ⟨a, b⟩ := p
    cases hk : (k == a) <;> simp [List.lookup, hk, ih]

/-- String append is associative. -/
theorem strAppendAssoc (a b c : String) : a ++ b ++ c = a ++ (b ++ c) := by
  obtain ⟨la⟩ := a
  obtain ⟨lb⟩ := b
  obtain ⟨lc⟩ := c
  exact congrArg String.mk (List.append_assoc la lb lc)

def testScopes : List String := ["scope-a", "scope-b"]

def testFlow : AuthFlow :=
  AuthFlow.new "123" testScopes "oob" "https://example.com/authorize"
    "https://example.com/token" "https://example.com/leap/api" [] none

def testToken : Token :=
  { access_token := "123", refresh_token := some "456", id_token := some "789"
  , expires_at := 59, token_type := none }

def okResponse : TokenResponse :=
  { status := 200, access_token := some "123", refresh_token := some "456"
  , id_token := some "789", expires_in := none, token_type := none }

def okServer : TokenRequest → TokenResponse := fun _ => okResponse

def okRefreshServer : RefreshRequest → TokenResponse := fun _ => okResponse

/-! Claim theorems. -/

/-- Claim C1: for every state value x that differs from the nonce generated
by the most recent get_authorization_url call, fetch_token with that state
fails with AuthStateMismatch, and no request to the token endpoint is
issued (the request log is empty). -/
theorem fetch_token_state_mismatch (flow : AuthFlow) (pkce : PKCEPair)
    (nonce x code : String) (server : TokenRequest → TokenResponse) (now : Int)
    (h : x ≠ nonce) :
    (flow.get_authorization_url pkce nonce).2.fetch_token code (some x) server now
      = (.error .AuthStateMismatch, []) := by
  simp [AuthFlow.get_authorization_url, AuthFlow.fetch_token, Ne.symm h]

/-- Witness for C1 at a concrete flow, nonce and mismatching state. -/
theorem fetch_token_state_mismatch_witness :
    ("invalid" : String) ≠ "nonce-1" ∧
    (testFlow.get_authorization_url ⟨"verifier", "challenge"⟩ "nonce-1").2.fetch_token
        "not important" (some "invalid") okServer 0
      = (.error .AuthStateMismatch, []) :=
  ⟨by decide,
   fetch_token_state_mismatch testFlow ⟨"verifier", "challenge"⟩ "nonce-1"
     "invalid" "not important" okServer 0 (by decide)⟩

/-- Claim C3: every URL returned by get_authorization_url starts with the
configured authorization endpoint, and its query contains
response_type=code, the configured client_id, the configured redirect_uri,
scope equal to the flow's scopes joined with single spaces, a state
parameter, a code_challenge parameter, and code_challenge_method=S256. -/
theorem auth_url_query_contents (cid : String) (scopes : List String)
    (ruri aep tep lep : String) (creds : Credentials) (sc : Option SessionConfig)
    (pkce : PKCEPair) (nonce : String) :
    (∃ rest,
      ((AuthFlow.new cid scopes ruri aep tep lep creds sc).get_authorization_url
          pkce nonce).1 = aep ++ rest) ∧
    ((AuthFlow.new cid scopes ruri aep tep lep creds sc).get_authorization_url
        pkce nonce).1
      = aep ++ "?" ++ renderQuery
          (authQueryParams (AuthFlow.new cid scopes ruri aep tep lep creds sc)
            pkce nonce) ∧
    ("response_type", "code")
      ∈ authQueryParams (AuthFlow.new cid scopes ruri aep tep lep creds sc) pkce nonce ∧
    ("client_id", cid)
      ∈ authQueryParams (AuthFlow.new cid scopes ruri aep tep lep creds sc) pkce nonce ∧
    ("redirect_uri", ruri)
      ∈ authQueryParams (AuthFlow.new cid scopes ruri aep tep lep creds sc) pkce nonce ∧
    ("scope", String.intercalate " " scopes)
      ∈ authQueryParams (AuthFlow.new cid scopes ruri aep tep lep creds sc) pkce nonce ∧
    ("state", nonce)
      ∈ authQueryParams (AuthFlow.new cid scopes ruri aep tep lep creds sc) pkce nonce ∧
    ("code_challenge", pkce.code_challenge)
      ∈ authQueryParams (AuthFlow.new cid scopes ruri aep tep lep creds sc) pkce nonce ∧
    ("code_challenge_method", "S256")
      ∈ authQueryParams (AuthFlow.new cid scopes ruri aep tep lep creds sc) pkce nonce := by
  refine ⟨⟨"?" ++ renderQuery (authQueryParams
      (AuthFlow.new cid scopes ruri aep tep lep creds sc) pkce nonce),
      (strAppendAssoc _ _ _)⟩, rfl, ?_, ?_, ?_, ?_, ?_, ?_, ?_⟩ <;>
    simp [authQueryParams, AuthFlow.new]

/-- Claim C4: a flow holds at most one outstanding (verifier, state) pair —
after two successive get_authorization_url calls the stored pair is the
second one, fetch_token with the first state fails the state check with no
network request, and fetch_token with the second state proceeds to issue
the exchange request. -/
theorem single_outstanding_state (flow : AuthFlow) (p1 p2 : PKCEPair)
    (s1 s2 code : String) (server : TokenRequest → TokenResponse) (now : Int)
    (h : s1 ≠ s2) :
    ((flow.get_authorization_url p1 s1).2.get_authorization_url p2 s2).2.state
      = some s2 ∧
    ((flow.get_authorization_url p1 s1).2.get_authorization_url p2 s2).2.code_verifier
      = some p2.code_verifier ∧
    ((flow.get_authorization_url p1 s1).2.get_authorization_url p2 s2).2.fetch_token
        code (some s1) server now
      = (.error .AuthStateMismatch, []) ∧
    (((flow.get_authorization_url p1 s1).2.get_authorization_url p2 s2).2.fetch_token
        code (some s2) server now).2
      = [authCodeRequest
          ((flow.get_authorization_url p1 s1).2.get_authorization_url p2 s2).2 code] := by
  refine ⟨rfl, rfl, ?_, ?_⟩ <;>
    simp [AuthFlow.get_authorization_url, AuthFlow.fetch_token, AuthFlow.exchange,
      Ne.symm h]

/-- Witness for C4 at two concrete successive authorization requests. -/
theorem single_outstanding_state_witness :
    ("s-one" : String) ≠ "s-two" ∧
    ((testFlow.get_authorization_url ⟨"v1", "c1"⟩ "s-one").2.get_authorization_url
        ⟨"v2", "c2"⟩ "s-two").2.state = some "s-two" ∧
    ((testFlow.get_authorization_url ⟨"v1", "c1"⟩ "s-one").2.get_authorization_url
        ⟨"v2", "c2"⟩ "s-two").2.code_verifier = some "v2" ∧
    ((testFlow.get_authorization_url ⟨"v1", "c1"⟩ "s-one").2.get_authorization_url
        ⟨"v2", "c2"⟩ "s-two").2.fetch_token "code" (some "s-one") okServer 0
      = (.error .AuthStateMismatch, []) ∧
    (((testFlow.get_authorization_url ⟨"v1", "c1"⟩ "s-one").2.get_authorization_url
        ⟨"v2", "c2"⟩ "s-two").2.fetch_token "code" (some "s-two") okServer 0).2
      = [authCodeRequest
          ((testFlow.get_authorization_url ⟨"v1", "c1"⟩ "s-one").2.get_authorization_url
            ⟨"v2", "c2"⟩ "s-two").2 "code"] :=
  ⟨by decide,
   single_outstanding_state testFlow ⟨"v1", "c1"⟩ ⟨"v2", "c2"⟩ "s-one" "s-two"
     "code" okServer 0 (by decide)⟩

/-- Claim C10: the constructed flow's scopes attribute is the single string
obtained by joining the supplied scope sequence with spaces, both for
direct construction and for the provider-specialized factory with a scopes
override. -/
theorem scopes_joined (cid : String) (scopes : List String)
    (ruri aep tep lep : String) (creds : Credentials) (sc : Option SessionConfig)
    (config : ClientConfig) :
    (AuthFlow.new cid scopes ruri aep tep lep creds sc).scopes
      = String.intercalate " " scopes ∧
    (LeapAuthFlow.from_config_model config none (some scopes) none).scopes
      = String.intercalate " " scopes :=
  ⟨rfl, rfl⟩

/-- Claim C2: when the token endpoint answers with success and a body
carrying access_token, refresh_token and id_token, fetch_token returns a
Token with exactly those body fields (expires_at computed from expires_in,
with the conservative default when absent), installs it as the flow's
active token, and persists it in Credentials under the flow's issuer
(leap_api_endpoint) key; exactly one exchange request is issued. -/
theorem fetch_token_success (flow : AuthFlow) (code : String)
    (server : TokenRequest → TokenResponse) (now : Int) (a : String)
    (hs : (server (authCodeRequest flow code)).status = 200)
    (ha : (server (authCodeRequest flow code)).access_token = some a) :
    ∃ tok flow2,
      flow.fetch_token code none server now
        = (.ok (tok, flow2), [authCodeRequest flow code]) ∧
      tok.access_token = a ∧
      tok.refresh_token = (server (authCodeRequest flow code)).refresh_token ∧
      tok.id_token = (server (authCodeRequest flow code)).id_token ∧
      tok.expires_at
        = now + ((server (authCodeRequest flow code)).expires_in.getD DEFAULT_EXPIRES_IN) ∧
      flow2.token = some tok ∧
      flow2.creds.get flow.leap_api_endpoint = some tok := by
  have hres : flow.fetch_token code none server now
      = (.ok (tokenOfResponse (server (authCodeRequest flow code)) a now,
              flow.set_token (tokenOfResponse (server (authCodeRequest flow code)) a now)),
         [authCodeRequest flow code]) := by
    simp [AuthFlow.fetch_token, AuthFlow.exchange, hs, ha]
  exact ⟨_, _, hres, rfl, rfl, rfl, rfl, rfl, Credentials.get_set _ _ _⟩

/-- Witness for C2 at a concrete flow and a mocked successful endpoint. -/
theorem fetch_token_success_witness :
    (okServer (authCodeRequest testFlow "123456")).status = 200 ∧
    (okServer (authCodeRequest testFlow "123456")).access_token = some "123" ∧
    ∃ tok flow2,
      testFlow.fetch_token "123456" none okServer 0
        = (.ok (tok, flow2), [authCodeRequest testFlow "123456"]) ∧
      tok.access_token = "123" ∧
      tok.refresh_token = (okServer (authCodeRequest testFlow "123456")).refresh_token ∧
      tok.id_token = (okServer (authCodeRequest testFlow "123456")).id_token ∧
      tok.expires_at
        = 0 + ((okServer (authCodeRequest testFlow "123456")).expires_in.getD
            DEFAULT_EXPIRES_IN) ∧
      flow2.token = some tok ∧
      flow2.creds.get testFlow.leap_api_endpoint = some tok :=
  ⟨rfl, rfl, fetch_token_success testFlow "123456" okServer 0 "123" rfl rfl⟩

/-- Claim C6: token_expires_soon is true iff expires_at - now is at most
the `within` bound; with expires_at 59 seconds in the future it is true
for the default within of 60 seconds and false for within = 0. -/
theorem token_expires_soon_spec (flow : AuthFlow) (t : Token) (now within : Int)
    (h : flow.token = some t) :
    (flow.token_expires_soon now within = some true ↔ t.expires_at - now ≤ within) ∧
    (t.expires_at = now + 59 →
      flow.token_expires_soon now TOKEN_EXPIRES_WITHIN = some true ∧
      flow.token_expires_soon now 0 = some false) := by
  constructor
  · simp [AuthFlow.token_expires_soon, h]
  · intro h59
    constructor <;>
      simp [AuthFlow.token_expires_soon, h, h59, TOKEN_EXPIRES_WITHIN]
    omega

/-- Witness for C6 at a concrete token expiring 59 seconds after `now`. -/
theorem token_expires_soon_spec_witness :
    ({ testFlow with token := some testToken } : AuthFlow).token = some testToken ∧
    (({ testFlow with token := some testToken } : AuthFlow).token_expires_soon 0 60
        = some true ↔ testToken.expires_at - 0 ≤ 60) ∧
    (testToken.expires_at = 0 + 59 →
      ({ testFlow with token := some testToken } : AuthFlow).token_expires_soon 0
          TOKEN_EXPIRES_WITHIN = some true ∧
      ({ testFlow with token := some testToken } : AuthFlow).token_expires_soon 0 0
          = some false) :=
  ⟨rfl, token_expires_soon_spec { testFlow with token := some testToken } testToken 0 60 rfl⟩

/-- Claim C5: when the single GET arriving during a redirect flow hits the
redirect path carrying code and a state equal to the most recently
generated nonce, the browser gets exactly the fixed completion message,
fetch_token is invoked with exactly that (code, state) pair, and the state
check passes so the exchange request is issued. -/
theorem run_redirect_step_spec (flow : AuthFlow) (redirect_path c s : String)
    (server : TokenRequest → TokenResponse) (now : Int)
    (hstate : flow.state = some s) :
    (flow.run_redirect_step redirect_path
        ⟨redirect_path, [("code", c), ("state", s)]⟩ server now).1
      = (200, REDIRECT_DONE_MSG) ∧
    (flow.run_redirect_step redirect_path
        ⟨redirect_path, [("code", c), ("state", s)]⟩ server now).2
      = some ((c, some s), flow.fetch_token c (some s) server now) ∧
    (flow.fetch_token c (some s) server now).2 = [authCodeRequest flow c] := by
  refine ⟨?_, ?_, ?_⟩
  · simp [AuthFlow.run_redirect_step, AuthFlow.handle_redirect, List.lookup]
  · simp [AuthFlow.run_redirect_step, AuthFlow.handle_redirect, List.lookup]
  · simp [AuthFlow.fetch_token, AuthFlow.exchange, hstate]

/-- Witness for C5 at a concrete flow with an outstanding state nonce. -/
theorem run_redirect_step_spec_witness :
    ({ testFlow with state := some "state-1" } : AuthFlow).state = some "state-1" ∧
    (({ testFlow with state := some "state-1" } : AuthFlow).run_redirect_step "/callback"
        ⟨"/callback", [("code", "1234"), ("state", "state-1")]⟩ okServer 0).1
      = (200, REDIRECT_DONE_MSG) ∧
    (({ testFlow with state := some "state-1" } : AuthFlow).run_redirect_step "/callback"
        ⟨"/callback", [("code", "1234"), ("state", "state-1")]⟩ okServer 0).2
      = some (("1234", some "state-1"),
          ({ testFlow with state := some "state-1" } : AuthFlow).fetch_token "1234"
            (some "state-1") okServer 0) ∧
    (({ testFlow with state := some "state-1" } : AuthFlow).fetch_token "1234"
        (some "state-1") okServer 0).2
      = [authCodeRequest ({ testFlow with state := some "state-1" } : AuthFlow) "1234"] :=
  ⟨rfl, run_redirect_step_spec { testFlow with state := some "state-1" } "/callback"
    "1234" "state-1" okServer 0 rfl⟩

/-- Claim C7: a successful refresh exchange replaces the flow's active
token with the token the endpoint returned and persists it under the
flow's issuer key; with no active token, with an active token lacking a
refresh_token, or with a rejecting server, refresh_token fails with
AuthTokenExchangeError. -/
theorem refresh_token_spec (flow : AuthFlow)
    (server : RefreshRequest → TokenResponse) (now : Int) :
    (flow.token = none →
      flow.refresh_token server now = .error .AuthTokenExchangeError) ∧
    (∀ t, flow.token = some t → t.refresh_token = none →
      flow.refresh_token server now = .error .AuthTokenExchangeError) ∧
    (∀ t rt, flow.token = some t → t.refresh_token = some rt →
      ((server (refreshRequest flow rt)).status ≠ 200 →
        flow.refresh_token server now = .error .AuthTokenExchangeError) ∧
      (∀ a, (server (refreshRequest flow rt)).status = 200 →
        (server (refreshRequest flow rt)).access_token = some a →
        flow.refresh_token server now
          = .ok (tokenOfResponse (server (refreshRequest flow rt)) a now,
                 flow.set_token (tokenOfResponse (server (refreshRequest flow rt)) a now)) ∧
        (flow.set_token (tokenOfResponse (server (refreshRequest flow rt)) a now)).token
          = some (tokenOfResponse (server (refreshRequest flow rt)) a now) ∧
        (flow.set_token
            (tokenOfResponse (server (refreshRequest flow rt)) a now)).creds.get
            flow.leap_api_endpoint
          = some (tokenOfResponse (server (refreshRequest flow rt)) a now))) := by
  refine ⟨?_, ?_, ?_⟩
  · intro h
    simp [AuthFlow.refresh_token, h]
  · intro t ht hrt
    simp [AuthFlow.refresh_token, ht, hrt]
  · intro t rt ht hrt
    refine ⟨?_, ?_⟩
    · intro hs
      simp [AuthFlow.refresh_token, ht, hrt, hs]
    · intro a hs ha
      refine ⟨?_, rfl, Credentials.get_set _ _ _⟩
      simp [AuthFlow.refresh_token, ht, hrt, hs, ha]

/-- Witness for C7: a concrete flow holding a refreshable token and a
mocked accepting endpoint; the refresh succeeds with the endpoint's token
installed and persisted. -/
theorem refresh_token_spec_witness :
    ({ testFlow with token := some testToken } : AuthFlow).refresh_token
        okRefreshServer 0
      = .ok (tokenOfResponse okResponse "123" 0,
             ({ testFlow with token := some testToken } : AuthFlow).set_token
               (tokenOfResponse okResponse "123" 0)) :=
  (((refresh_token_spec { testFlow with token := some testToken }
      okRefreshServer 0).2.2 testToken "456" rfl rfl).2 "123" rfl rfl).1

/-- Claim C8: a session configuration supplying cert, headers, proxies,
timeout and verify — applied at construction or afterwards via
update_session, the two paths agreeing — yields a client whose cert,
proxies, default timeout and verify equal the supplied values, and whose
headers are the prior defaults merged with (not replaced by) the supplied
headers: supplied entries win, all other prior entries survive. -/
theorem session_config_spec (s : Session) (c : SessionConfig)
    (cert : String) (headers proxies : List (String × String))
    (timeout : Nat) (verify : Bool)
    (h1 : c.cert = some cert) (h2 : c.headers = some headers)
    (h3 : c.proxies = some proxies) (h4 : c.timeout = some timeout)
    (h5 : c.verify = some verify)
    (cid : String) (scopes : List String) (ruri aep tep lep : String)
    (creds : Credentials) :
    (s.update c).cert = some cert ∧
    (s.update c).proxies = proxies ∧
    (s.update c).default_timeout = some timeout ∧
    (s.update c).verify = verify ∧
    (∀ k v, headers.lookup k = some v → (s.update c).headers.lookup k = some v) ∧
    (∀ k, headers.lookup k = none →
      (s.update c).headers.lookup k = s.headers.lookup k) ∧
    (AuthFlow.new cid scopes ruri aep tep lep creds (some c)).session
      = ((AuthFlow.new cid scopes ruri aep tep lep creds none).update_session c).session := by
  refine ⟨?_, ?_, ?_, ?_, ?_, ?_, rfl⟩
  · simp [Session.update, h1]
  · simp [Session.update, h3]
  · simp [Session.update, h4]
  · simp [Session.update, h5]
  · intro k v hkv
    simp [Session.update, h2]
    rw [lookup_append]
    simp [hkv]
  · intro k hk
    simp [Session.update, h2]
    rw [lookup_append]
    simp [hk]

/-- The session configuration the test suite applies. -/
def testSessionConfig : SessionConfig :=
  { cert := some "/path/to/cert"
  , headers := some [("X-Field", "Value")]
  , proxies := some [("https", "socks5://localhost")]
  , timeout := some 60
  , verify := some false }

/-- Witness for C8 at the test suite's concrete session configuration
applied to the default session. -/
theorem session_config_spec_witness :
    (defaultSession.update testSessionConfig).cert = some "/path/to/cert" ∧
    (defaultSession.update testSessionConfig).proxies
      = [("https", "socks5://localhost")] ∧
    (defaultSession.update testSessionConfig).default_timeout = some 60 ∧
    (defaultSession.update testSessionConfig).verify = false ∧
    (defaultSession.update testSessionConfig).headers.lookup "X-Field" = some "Value" ∧
    (defaultSession.update testSessionConfig).headers.lookup "User-Agent"
      = defaultSession.headers.lookup "User-Agent" :=
  ⟨(session_config_spec defaultSession testSessionConfig "/path/to/cert"
      [("X-Field", "Value")] [("https", "socks5://localhost")] 60 false
      rfl rfl rfl rfl rfl "123" testScopes "oob" "a" "t" "l" []).1,
   (session_config_spec defaultSession testSessionConfig "/path/to/cert"
      [("X-Field", "Value")] [("https", "socks5://localhost")] 60 false
      rfl rfl rfl rfl rfl "123" testScopes "oob" "a" "t" "l" []).2.1,
   (session_config_spec defaultSession testSessionConfig "/path/to/cert"
      [("X-Field", "Value")] [("https", "socks5://localhost")] 60 false
      rfl rfl rfl rfl rfl "123" testScopes "oob" "a" "t" "l" []).2.2.1,
   (session_config_spec defaultSession testSessionConfig "/path/to/cert"
      [("X-Field", "Value")] [("https", "socks5://localhost")] 60 false
      rfl rfl rfl rfl rfl "123" testScopes "oob" "a" "t" "l" []).2.2.2.1,
   (session_config_spec defaultSession testSessionConfig "/path/to/cert"
      [("X-Field", "Value")] [("https", "socks5://localhost")] 60 false
      rfl rfl rfl rfl rfl "123" testScopes "oob" "a" "t" "l"
      []).2.2.2.2.1 "X-Field" "Value" rfl,
   (session_config_spec defaultSession testSessionConfig "/path/to/cert"
      [("X-Field", "Value")] [("https", "socks5://localhost")] 60 false
      rfl rfl rfl rfl rfl "123" testScopes "oob" "a" "t" "l"
      []).2.2.2.2.2.1 "User-Agent" rfl⟩

/-- Claim C9: from a configuration carrying only an issuer base URL, the
provider-specialized flow's authorization and token endpoints are the base
URL extended with the fixed suffixes — hence prefixed by the base URL and
suffixed with authorize and token respectively — and, absent overrides,
the flow uses the SDK default client id, the SDK default scopes, and the
out-of-band sentinel redirect URI. -/
theorem from_config_minimal_spec (base : String) :
    (LeapAuthFlow.from_config_model ⟨base, [], none, none⟩
        none none none).authorization_endpoint = base ++ AUTHORIZE_SUFFIX ∧
    (∃ p, (LeapAuthFlow.from_config_model ⟨base, [], none, none⟩
        none none none).authorization_endpoint = p ++ "authorize") ∧
    (LeapAuthFlow.from_config_model ⟨base, [], none, none⟩
        none none none).token_endpoint = base ++ TOKEN_SUFFIX ∧
    (∃ p, (LeapAuthFlow.from_config_model ⟨base, [], none, none⟩
        none none none).token_endpoint = p ++ "token") ∧
    (LeapAuthFlow.from_config_model ⟨base, [], none, none⟩
        none none none).leap_api_endpoint = base ∧
    (LeapAuthFlow.from_config_model ⟨base, [], none, none⟩
        none none none).client_id = OCEAN_SDK_CLIENT_ID ∧
    (LeapAuthFlow.from_config_model ⟨base, [], none, none⟩
        none none none).scopes = String.intercalate " " OCEAN_SDK_SCOPES ∧
    (LeapAuthFlow.from_config_model ⟨base, [], none, none⟩
        none none none).redirect_uri = OOB_REDIRECT_URI := by
  refine ⟨rfl, ⟨base ++ "/", ?_⟩, rfl, ⟨base ++ "/", ?_⟩, rfl, rfl, rfl, rfl⟩
  · exact (strAppendAssoc base "/" "authorize").symm
  · exact (strAppendAssoc base "/" "token").symm

end CloudClient
